import Mathlib

/-!
# Hospital backend (`backend/server.js`): request handlers over a document store

The handlers of `server.js` are embedded as pure functions.  A collection is the
list of its documents in store order; a handler takes the collection(s) it reads,
the parsed request body or path parameter, and the values the environment hands it
(the clock readings of `new Date()` and the identifier the driver generates for an
insert), and returns the HTTP response together with the collection afterwards.

Scope of the value model: request bodies hold JSON primitives (null, booleans,
integers, strings) and the empty object `{}`; arrays, objects with members,
non-integer numbers and the query operators of the store are not represented.
Numbers are the integers a double holds exactly.  Field names are top-level names.
Store calls complete (no connection loss); the exceptions that are modelled are the
ones the handlers can provoke themselves: the `ObjectId` constructor rejecting a
string, and `$set` on the immutable `_id`.
-/

namespace Hospital

/-! ## Values -/

/-- JSON value held by a parsed request body: a primitive, or the empty object
`{}` (the one composite value represented; how the store matches and orders arrays
and objects with members depends on their contents). -/
inductive JsVal where
  | null
  | bool (b : Bool)
  | num (n : Int)
  | str (s : String)
  | emptyObject
  deriving DecidableEq, Repr

/-- Primitive values, those `===` compares by value; an object is not one. -/
def JsVal.isPrimitive : JsVal → Bool
  | .emptyObject => false
  | _ => true

/-- Value of a field of a stored document: a JSON value (`{}` being an empty
embedded document), the number `NaN` (what `parseInt` yields on non-numeric
input), or a `Date` (milliseconds). -/
inductive BsonVal where
  | js (v : JsVal)
  | nan
  | date (ms : Int)
  deriving DecidableEq, Repr

/-- Parsed JSON object body: keys with their values; a key that is absent reads as
`undefined`, which is `none` here. -/
abbrev JsObj := List (String × JsVal)

/-- Property read `body.k`: `none` is JavaScript `undefined`. -/
def JsObj.get (o : JsObj) (k : String) : Option JsVal := o.lookup k

/-- JavaScript truthiness of a body property, so that `!x` is `!(truthy x)`:
`undefined`, `null`, `false`, `0` and the empty string are falsy; every object is
truthy. -/
def truthy : Option JsVal → Bool
  | none => false
  | some .null => false
  | some (.bool b) => b
  | some (.num n) => n != 0
  | some (.str s) => s != ""
  | some .emptyObject => true

/-- Value the driver stores for a body property: `undefined` is serialised as
null. -/
def stored : Option JsVal → BsonVal
  | none => .js .null
  | some v => .js v

/-! ## ObjectId -/

/-- Store-native identifier: twelve bytes, kept as their 24-digit lower-case
hexadecimal rendering (what `toString` and string concatenation produce). -/
structure ObjectId where
  hex : String
  deriving DecidableEq, Repr

/-- Hexadecimal digit test used by the `ObjectId` constructor. -/
def isHexChar (c : Char) : Bool :=
  c.isDigit || ('a' ≤ c && c ≤ 'f') || ('A' ≤ c && c ≤ 'F')

/-- Constructor `new ObjectId(id)` on a string, as in the driver's current BSON
library: accepts exactly the strings of 24 hexadecimal digits (upper or lower
case, the same twelve bytes either way), and throws on every other string. -/
def ObjectId.ofString (s : String) : Except String ObjectId :=
  if s.data.length = 24 ∧ s.data.all isHexChar = true then
    .ok ⟨String.mk (s.data.map Char.toLower)⟩
  else
    .error "input must be a 24 character hex string, 12 byte Uint8Array, or an integer"

/-! ## Documents and collections -/

/-- Fields of a document other than `_id`. -/
abbrev Fields := List (String × BsonVal)

/-- Stored document: its `_id` and its other fields. -/
structure Doc where
  _id : ObjectId
  fields : Fields
  deriving DecidableEq, Repr

/-- Field read `doc.k`; `none` when the document has no such field. -/
def Doc.get (d : Doc) (k : String) : Option BsonVal := d.fields.lookup k

/-- Collection: its documents in store (insertion) order. -/
abbrev Collection := List Doc

/-- Equality match of a query `{k: q}` against a document's field: a null query
value also matches a missing field. -/
def matchesEq (field : Option BsonVal) (q : BsonVal) : Bool :=
  if q = .js .null then decide (field = none ∨ field = some (.js .null))
  else decide (field = some q)

/-- Store call `findOne({k: q})`: the first document whose field `k` matches. -/
def findOne (c : Collection) (k : String) (q : BsonVal) : Option Doc :=
  c.find? (fun d => matchesEq (d.get k) q)

/-- Store call `findOne({_id: oid})`. -/
def findOneById (c : Collection) (oid : ObjectId) : Option Doc :=
  c.find? (fun d => decide (d._id = oid))

/-- Store call `insertOne(doc)`: the driver gives the document the identifier
`newId`; the document is added at the end.  Returns the collection and
`insertedId`. -/
def insertOne (c : Collection) (newId : ObjectId) (doc : Fields) : Collection × ObjectId :=
  (c ++ [⟨newId, doc⟩], newId)


/-- Assignment of one field (`o.k = v` on an object, one path of `$set` on a
document): overwrites the field in place when it exists, adds it at the end
otherwise. -/
def Fields.set : Fields → String → BsonVal → Fields
  | [], k, v => [(k, v)]
  | (k', w) :: rest, k, v =>
      if k' = k then (k', v) :: rest else (k', w) :: Fields.set rest k v

/-- Field names `$set` takes as the name of one top-level field: not empty, no
dot (the store reads a dotted name as a path into a nested document) and no
leading dollar sign. -/
def plainFieldName (k : String) : Bool :=
  k.data != [] && !k.data.contains '.' && k.data.head? != some '$'

/-- Update operator `$set: upd` applied to a document's fields, for plain field
names: every field named
in `upd` receives the value `upd` gives it (the value `upd.lookup` reads), the
others keep theirs. -/
def applySet (doc : Fields) : Fields → Fields
  | [] => doc
  | (k, v) :: rest => Fields.set (applySet doc rest) k v

/-- First document with identifier `oid` rewritten by `$set: upd`. -/
def setFirst : Collection → ObjectId → Fields → Collection
  | [], _, _ => []
  | d :: rest, oid, upd =>
      if d._id = oid then ⟨d._id, applySet d.fields upd⟩ :: rest
      else d :: setFirst rest oid upd

/-- Store call `updateOne({_id: oid}, {$set: upd})`: `matchedCount` and the
collection afterwards.  With no matching document nothing happens; on a match the
store refuses an update that names `_id` (every value a request can carry differs
from the stored identifier) and throws. -/
def updateOne (c : Collection) (oid : ObjectId) (upd : Fields) : Except String (Nat × Collection) :=
  match findOneById c oid with
  | none => .ok (0, c)
  | some _ =>
      if (upd.lookup "_id").isSome then
        .error "Performing an update on the path '_id' would modify the immutable field '_id'"
      else .ok (1, setFirst c oid upd)

/-- Store call `deleteOne({_id: oid})`: `deletedCount` and the collection
afterwards (the first matching document removed). -/
def deleteOne (c : Collection) (oid : ObjectId) : Nat × Collection :=
  match findOneById c oid with
  | none => (0, c)
  | some _ => (1, c.eraseP (fun d => decide (d._id = oid)))

/-! ## Sorting by `createdAt` -/

/-- Comparison class of a value in the store's cross-type sort order: null or
missing, then numbers, strings, embedded documents, booleans, dates. -/
def sortClass : Option BsonVal → Nat
  | none => 0
  | some (.js .null) => 0
  | some .nan => 1
  | some (.js (.num _)) => 1
  | some (.js (.str _)) => 2
  | some (.js .emptyObject) => 3
  | some (.js (.bool _)) => 4
  | some (.date _) => 5

/-- Store order on sort keys (`a` sorts no later than `b` ascending): by class,
then within a class by value, `NaN` below every number, two empty documents
equal. -/
def bsonLe (a b : Option BsonVal) : Bool :=
  if sortClass a < sortClass b then true
  else if sortClass b < sortClass a then false
  else
    match a, b with
    | some (.js (.num m)), some (.js (.num n)) => decide (m ≤ n)
    | some (.js (.num _)), some .nan => false
    | some (.js (.str s)), some (.js (.str t)) => decide (s ≤ t)
    | some (.js (.bool x)), some (.js (.bool y)) => !x || y
    | some (.date m), some (.date n) => decide (m ≤ n)
    | _, _ => true

/-- Descending `createdAt` order of `sort({createdAt: -1})`: `a` may precede `b`. -/
def newerFirst (a b : Doc) : Prop :=
  bsonLe (b.get "createdAt") (a.get "createdAt") = true

instance : DecidableRel newerFirst := fun a b =>
  inferInstanceAs (Decidable (bsonLe (b.get "createdAt") (a.get "createdAt") = true))

/-- Cursor `find().sort({createdAt: -1}).limit(6).toArray()`.  The store leaves
the relative order of documents with equal keys open; this sort keeps them in
store order. -/
def findLatest (c : Collection) : List Doc :=
  (c.insertionSort newerFirst).take 6

/-- Cursor `find({specialty}).toArray()`. -/
def findBySpecialty (c : Collection) (specialty : String) : List Doc :=
  c.filter (fun d => matchesEq (d.get "specialty") (.js (.str specialty)))


/-! ## Responses and environment -/

/-- Payload under the `data` key of a response body. -/
inductive Data where
  | user (id : ObjectId) (name email role : Option BsonVal)
  | doctor (d : Doc)
  | doctors (ds : List Doc)
  deriving DecidableEq, Repr

/-- HTTP response: status code and the keys of the JSON body. -/
structure Response where
  status : Nat
  success : Bool
  message : Option String
  data : Option Data
  error : Option String
  token : Option String
  deriving DecidableEq, Repr

/-- Values a handler obtains from its environment: the readings of the first and
second `new Date()` it evaluates, the identifier the driver generates if it
inserts, and what the runtime's `parseInt` returns on the arguments where the
result is not the exact integer of the digits read (see `parseInt`). -/
structure Env where
  now : Int
  now2 : Int
  newId : ObjectId
  parseIntInexact : Option JsVal → BsonVal

/-- Failure response `res.status(code).json({ success: false, message })`. -/
def failure (code : Nat) (message : String) : Response :=
  ⟨code, false, some message, none, none, none⟩

/-- Response of every `catch (error)` block: 500 with the error's message. -/
def serverError (errorMessage : String) : Response :=
  ⟨500, false, some "Server error", none, some errorMessage, none⟩

/-- String concatenation `"token-" + id`. -/
def tokenOf (id : ObjectId) : String := "token-" ++ id.hex

/-- Strict comparison `user.password === password` between a stored field and a
body property: primitives compare by value; an object is compared by identity,
and the object read from the store is never the object parsed from the request,
so `{}` equals nothing; `NaN` and `Date` objects equal no body value. -/
def strictEq : Option BsonVal → Option JsVal → Bool
  | none, none => true
  | some (.js a), some b => a.isPrimitive && decide (a = b)
  | _, _ => false

/-! ## `parseInt` -/

/-- White space that `parseInt` skips at the start of a string. -/
def isJsWhiteSpace (c : Char) : Bool :=
  let n := c.toNat
  n = 9 || n = 10 || n = 11 || n = 12 || n = 13 || n = 32 || n = 0xA0 || n = 0x1680 ||
  (0x2000 ≤ n && n ≤ 0x200A) || n = 0x2028 || n = 0x2029 || n = 0x202F || n = 0x205F ||
  n = 0x3000 || n = 0xFEFF

/-- Value of a digit in the given radix, if the character is one. -/
def digitValue (radix : Nat) (c : Char) : Option Nat :=
  let v :=
    if c.isDigit then c.toNat - '0'.toNat
    else if 'a' ≤ c ∧ c ≤ 'z' then c.toNat - 'a'.toNat + 10
    else if 'A' ≤ c ∧ c ≤ 'Z' then c.toNat - 'A'.toNat + 10
    else radix
  if v < radix then some v else none

/-- Longest run of digits at the start of the list, as a number; `none` when the
list does not start with a digit. -/
def leadingDigits (radix : Nat) : List Char → Option Nat → Option Nat
  | [], acc => acc
  | c :: rest, acc =>
      match digitValue radix c with
      | none => acc
      | some v => leadingDigits radix rest (some (acc.getD 0 * radix + v))

/-- String case of `parseInt`: white space, an optional sign, an optional `0x`,
then the longest run of digits, read as an exact integer; `none` when there is no
digit. -/
def parseIntChars (cs : List Char) : Option Int :=
  let cs := cs.dropWhile isJsWhiteSpace
  let (neg, cs) :=
    match cs with
    | '-' :: rest => (true, rest)
    | '+' :: rest => (false, rest)
    | _ => (false, cs)
  let (radix, cs) :=
    match cs with
    | '0' :: 'x' :: rest => (16, rest)
    | '0' :: 'X' :: rest => (16, rest)
    | _ => (10, cs)
  match leadingDigits radix cs none with
  | none => none
  | some v => some (if neg then -(v : Int) else (v : Int))

/-- Builtin `parseInt(x)` with one argument, the argument being converted to a
string first.  An integer of magnitude below 10^21 prints as its digits and reads
back as itself; a string yields the integer of its leading digits when that is
below 2^53, hence exact as a double, and `NaN` when it has no digit; `"null"`,
`"true"`, `"false"`, `"undefined"` and `"[object Object]"` hold no digit.  On the
remaining arguments (a number printed in exponent form, digits that round to a
double) the result is the environment's. -/
def parseInt (env : Env) : Option JsVal → BsonVal
  | some (.num n) =>
      if n.natAbs < 10 ^ 21 then .js (.num n) else env.parseIntInexact (some (.num n))
  | some (.str s) =>
      match parseIntChars s.data with
      | none => .nan
      | some v =>
          if v.natAbs < 2 ^ 53 then .js (.num v) else env.parseIntInexact (some (.str s))
  | _ => .nan

/-- Environment of the worked examples: the given clock readings and generated
id; none of the examples reaches an inexact `parseInt`. -/
def exampleEnv (now now2 : Int) (newId : ObjectId) : Env :=
  ⟨now, now2, newId, fun _ => .nan⟩

/-! ## Handlers -/

/-- Handler `POST /api/auth/register` (server.js 45-77). -/
def register (env : Env) (users : Collection) (body : JsObj) : Response × Collection :=
  let name := body.get "name"
  let email := body.get "email"
  let password := body.get "password"
  if !truthy name || !truthy email || !truthy password then
    (failure 400 "Name, email, and password required", users)
  else
    match findOne users "email" (stored email) with
    | some _ => (failure 409 "User already exists", users)
    | none =>
        let user : Fields :=
          [("name", stored name), ("email", stored email), ("password", stored password),
           ("role", .js (.str "admin")), ("createdAt", .date env.now)]
        let result := insertOne users env.newId user
        (⟨201, true, some "User registered successfully",
          some (.user result.2 (name.map .js) (email.map .js) (some (.js (.str "admin")))),
          none, some (tokenOf result.2)⟩, result.1)

/-- Handler `POST /api/auth/login` (server.js 80-102). -/
def login (users : Collection) (body : JsObj) : Response × Collection :=
  let email := body.get "email"
  let password := body.get "password"
  if !truthy email || !truthy password then
    (failure 400 "Email and password required", users)
  else
    match findOne users "email" (stored email) with
    | none => (failure 401 "Invalid email or password", users)
    | some user =>
        if !strictEq (user.get "password") password then
          (failure 401 "Invalid email or password", users)
        else
          (⟨200, true, some "Login successful",
            some (.user user._id (user.get "name") (user.get "email") (user.get "role")),
            none, some (tokenOf user._id)⟩, users)

/-- Handler `GET /api/doctors` (server.js 105-112). -/
def listDoctors (doctors : Collection) : Response :=
  ⟨200, true, none, some (.doctors doctors), none, none⟩

/-- Handler `GET /api/doctors/latest` (server.js 115-126). -/
def latestDoctors (doctors : Collection) : Response :=
  ⟨200, true, none, some (.doctors (findLatest doctors)), none, none⟩

/-- Handler `GET /api/doctors/:id` (server.js 129-142): the `ObjectId`
constructor runs inside the `try`, so its exception reaches the `catch`. -/
def getDoctorById (doctors : Collection) (id : String) : Response :=
  match ObjectId.ofString id with
  | .error e => serverError e
  | .ok oid =>
      match findOneById doctors oid with
      | none => failure 404 "Doctor not found"
      | some doctor => ⟨200, true, none, some (.doctor doctor), none, none⟩

/-- Handler `POST /api/doctors` (server.js 145-180). -/
def createDoctor (env : Env) (doctors : Collection) (body : JsObj) : Response × Collection :=
  let name := body.get "name"
  let specialty := body.get "specialty"
  let email := body.get "email"
  let phone := body.get "phone"
  let experience := body.get "experience"
  let bio := body.get "bio"
  let imageUrl := body.get "imageUrl"
  if !truthy name || !truthy specialty || !truthy email || !truthy phone ||
      experience == none || !truthy bio then
    (failure 400 "All fields required", doctors)
  else
    match findOne doctors "email" (stored email) with
    | some _ => (failure 409 "Doctor with this email already exists", doctors)
    | none =>
        let doctor : Fields :=
          [("name", stored name), ("specialty", stored specialty), ("email", stored email),
           ("phone", stored phone), ("experience", parseInt env experience), ("bio", stored bio),
           ("imageUrl", if truthy imageUrl then stored imageUrl else .js .null),
           ("createdAt", .date env.now), ("updatedAt", .date env.now2)]
        let result := insertOne doctors env.newId doctor
        (⟨201, true, some "Doctor added successfully",
          some (.doctor ⟨result.2, doctor⟩), none, none⟩, result.1)

/-- Statements `const updateData = req.body; updateData.updatedAt = new Date()`
(server.js 186-187): the body, its values now stored values, with `updatedAt`
assigned the clock reading. -/
def updateDataOf (env : Env) (body : JsObj) : Fields :=
  Fields.set (body.map (fun p => (p.1, BsonVal.js p.2))) "updatedAt" (.date env.now)

/-- Handler `PUT /api/doctors/:id` (server.js 183-202): `updatedAt` is assigned on
the body before the identifier is constructed and the store is called. -/
def updateDoctor (env : Env) (doctors : Collection) (id : String) (body : JsObj) :
    Response × Collection :=
  let updateData := updateDataOf env body
  match ObjectId.ofString id with
  | .error e => (serverError e, doctors)
  | .ok oid =>
      match updateOne doctors oid updateData with
      | .error e => (serverError e, doctors)
      | .ok result =>
          if result.1 = 0 then (failure 404 "Doctor not found", result.2)
          else (⟨200, true, some "Doctor updated successfully", none, none, none⟩, result.2)

/-- Handler `DELETE /api/doctors/:id` (server.js 205-218). -/
def deleteDoctor (doctors : Collection) (id : String) : Response × Collection :=
  match ObjectId.ofString id with
  | .error e => (serverError e, doctors)
  | .ok oid =>
      let result := deleteOne doctors oid
      if result.1 = 0 then (failure 404 "Doctor not found", result.2)
      else (⟨200, true, some "Doctor deleted successfully", none, none, none⟩, result.2)

/-- Handler `GET /api/doctors/specialty/:specialty` (server.js 221-229). -/
def doctorsBySpecialty (doctors : Collection) (specialty : String) : Response :=
  ⟨200, true, none, some (.doctors (findBySpecialty doctors specialty)), none, none⟩


/-! ## Routing -/

/-- Request method. -/
inductive Method where
  | GET | HEAD | POST | PUT | DELETE | OPTIONS | PATCH
  deriving DecidableEq, Repr

/-- Handlers registered in `run`, named after their routes. -/
inductive Handler where
  | root | health | register | login | listDoctors | latestDoctors | getDoctorById
  | createDoctor | updateDoctor | deleteDoctor | doctorsBySpecialty
  deriving DecidableEq, Repr

/-- Segment of a route pattern: literal text or a named parameter `:name`. -/
inductive Seg where
  | lit (s : String)
  | param (name : String)
  deriving DecidableEq, Repr

/-- Registered route: method, path pattern, handler. -/
structure Route where
  method : Method
  pattern : List Seg
  handler : Handler
  deriving Repr

/-- Whether one piece of the path matches a pattern segment: a literal matches
without regard to letter case, a parameter matches any non-empty piece. -/
def segMatches : Seg → List Char → Bool
  | .lit s, piece => decide (piece.map Char.toLower = s.data.map Char.toLower)
  | .param _, piece => !piece.isEmpty

/-- Match of the whole path against a pattern: each segment is a slash followed by
a slash-free piece, and one trailing slash is tolerated.  On a match, the pieces
the parameters captured, in order, not yet decoded. -/
def matchPath : List Seg → List Char → Option (List (List Char))
  | [], cs => if cs = [] ∨ cs = ['/'] then some [] else none
  | seg :: rest, '/' :: cs =>
      if segMatches seg (cs.takeWhile (fun c => c != '/')) then
        match matchPath rest (cs.dropWhile (fun c => c != '/')) with
        | none => none
        | some captured =>
            match seg with
            | .lit _ => some captured
            | .param _ => some (cs.takeWhile (fun c => c != '/') :: captured)
      else none
  | _ :: _, _ => none

/-- Value of a hexadecimal digit. -/
def hexValue (c : Char) : Option Nat :=
  if c.isDigit then some (c.toNat - 48)
  else if 'a' ≤ c ∧ c ≤ 'f' then some (c.toNat - 87)
  else if 'A' ≤ c ∧ c ≤ 'F' then some (c.toNat - 55)
  else none

/-- First step of `decodeURIComponent`: every escape `%XX` becomes its byte, the
other characters stay; `none` (a `URIError`) when a percent sign is not followed
by two hexadecimal digits. -/
def percentBytes : List Char → Option (List (Char ⊕ Nat))
  | [] => some []
  | '%' :: h :: l :: rest =>
      match hexValue h, hexValue l, percentBytes rest with
      | some a, some b, some out => some (.inr (16 * a + b) :: out)
      | _, _, _ => none
  | '%' :: _ => none
  | c :: rest => (percentBytes rest).map (fun out => .inl c :: out)

/-- Continuation byte of a UTF-8 sequence. -/
def isContinuation (b : Nat) : Bool := 0x80 ≤ b && b < 0xC0

/-- Second step of `decodeURIComponent`: the escaped bytes are read as UTF-8; a
sequence of two, three or four bytes must be made of escapes only and encode a
code point in shortest form that is not a surrogate; `none` (a `URIError`)
otherwise. -/
def utf8Chars : List (Char ⊕ Nat) → Option (List Char)
  | [] => some []
  | .inl c :: rest => (utf8Chars rest).map (fun out => c :: out)
  | .inr b :: rest =>
      if b < 0x80 then (utf8Chars rest).map (fun out => Char.ofNat b :: out)
      else if 0xC0 ≤ b ∧ b < 0xE0 then
        match rest with
        | .inr b1 :: rest1 =>
            let cp := (b - 0xC0) * 64 + (b1 - 0x80)
            if isContinuation b1 ∧ 0x80 ≤ cp then
              (utf8Chars rest1).map (fun out => Char.ofNat cp :: out)
            else none
        | _ => none
      else if 0xE0 ≤ b ∧ b < 0xF0 then
        match rest with
        | .inr b1 :: .inr b2 :: rest2 =>
            let cp := (b - 0xE0) * 4096 + (b1 - 0x80) * 64 + (b2 - 0x80)
            if isContinuation b1 ∧ isContinuation b2 ∧ 0x800 ≤ cp ∧
                ¬ (0xD800 ≤ cp ∧ cp ≤ 0xDFFF) then
              (utf8Chars rest2).map (fun out => Char.ofNat cp :: out)
            else none
        | _ => none
      else if 0xF0 ≤ b ∧ b < 0xF8 then
        match rest with
        | .inr b1 :: .inr b2 :: .inr b3 :: rest3 =>
            let cp := (b - 0xF0) * 262144 + (b1 - 0x80) * 4096 + (b2 - 0x80) * 64 + (b3 - 0x80)
            if isContinuation b1 ∧ isContinuation b2 ∧ isContinuation b3 ∧ 0x10000 ≤ cp ∧
                cp ≤ 0x10FFFF then
              (utf8Chars rest3).map (fun out => Char.ofNat cp :: out)
            else none
        | _ => none
      else none

/-- Builtin `decodeURIComponent`, which the router applies to every captured
parameter: the decoded text, or `none` where it throws `URIError`. -/
def decodeURIComponent (cs : List Char) : Option (List Char) :=
  (percentBytes cs).bind utf8Chars

/-- Whether a route registered for `routeMethod` takes a request of method `m`:
`app.get` routes also take HEAD requests. -/
def handlesMethod (routeMethod m : Method) : Bool :=
  decide (m = routeMethod) || (decide (m = .HEAD) && decide (routeMethod = .GET))

/-- Route table in the order `run` registers the routes (server.js 35-229). -/
def routes : List Route :=
  [ ⟨.GET, [], .root⟩,
    ⟨.GET, [.lit "health"], .health⟩,
    ⟨.POST, [.lit "api", .lit "auth", .lit "register"], .register⟩,
    ⟨.POST, [.lit "api", .lit "auth", .lit "login"], .login⟩,
    ⟨.GET, [.lit "api", .lit "doctors"], .listDoctors⟩,
    ⟨.GET, [.lit "api", .lit "doctors", .lit "latest"], .latestDoctors⟩,
    ⟨.GET, [.lit "api", .lit "doctors", .param "id"], .getDoctorById⟩,
    ⟨.POST, [.lit "api", .lit "doctors"], .createDoctor⟩,
    ⟨.PUT, [.lit "api", .lit "doctors", .param "id"], .updateDoctor⟩,
    ⟨.DELETE, [.lit "api", .lit "doctors", .param "id"], .deleteDoctor⟩,
    ⟨.GET, [.lit "api", .lit "doctors", .lit "specialty", .param "specialty"],
      .doctorsBySpecialty⟩ ]

/-- Outcome of routing a request: a handler runs, or the router answers 400
because a captured parameter does not decode, or no route takes the request. -/
inductive Dispatched where
  | handler (h : Handler)
  | badRequest
  | noRoute
  deriving DecidableEq, Repr

/-- Router loop over the registered routes in order.  A route whose pattern
matches has its parameters decoded first; a parameter that does not decode ends
the search with 400 and no handler.  Otherwise the first such route that takes the
method has its handler run (each handler ends the request, none passes it on). -/
def dispatchFrom : List Route → Method → List Char → Dispatched
  | [], _, _ => .noRoute
  | r :: rest, m, path =>
      match matchPath r.pattern path with
      | none => dispatchFrom rest m path
      | some captured =>
          if captured.all (fun piece => (decodeURIComponent piece).isSome) then
            if handlesMethod r.method m then .handler r.handler
            else dispatchFrom rest m path
          else .badRequest

/-- Dispatch on the request's method and path name over the route table. -/
def dispatch (m : Method) (path : String) : Dispatched :=
  dispatchFrom routes m path.data

/-! ## The store as a whole -/

/-- The two collections the handlers share (`usersCollection`,
`doctorsCollection`). -/
structure Db where
  users : Collection
  doctors : Collection
  deriving DecidableEq, Repr

/-- Request to one of the five handlers that write or authenticate, with the
input the handler reads. -/
inductive Request where
  | register (body : JsObj)
  | login (body : JsObj)
  | createDoctor (body : JsObj)
  | updateDoctor (id : String) (body : JsObj)
  | deleteDoctor (id : String)
  deriving Repr

/-- Run the handler a request is for against the store: each handler touches only
its own collection. -/
def handle (env : Env) (db : Db) : Request → Response × Db
  | .register body =>
      let r := register env db.users body
      (r.1, ⟨r.2, db.doctors⟩)
  | .login body =>
      let r := login db.users body
      (r.1, ⟨r.2, db.doctors⟩)
  | .createDoctor body =>
      let r := createDoctor env db.doctors body
      (r.1, ⟨db.users, r.2⟩)
  | .updateDoctor id body =>
      let r := updateDoctor env db.doctors id body
      (r.1, ⟨db.users, r.2⟩)
  | .deleteDoctor id =>
      let r := deleteDoctor db.doctors id
      (r.1, ⟨db.users, r.2⟩)

/-! ## Lemmas on values and store calls -/

theorem truthy_some {x : Option JsVal} (h : truthy x = true) :
    ∃ v, x = some v ∧ v ≠ JsVal.null := by
  cases x with
  | none => simp [truthy] at h
  | some v => cases v <;> simp_all [truthy]

theorem matchesEq_js {f : Option BsonVal} {v : JsVal} (hv : v ≠ JsVal.null) :
    matchesEq f (.js v) = decide (f = some (.js v)) := by
  simp [matchesEq, hv]

theorem findOne_js_eq_none {c : Collection} {k : String} {v : JsVal} (hv : v ≠ JsVal.null) :
    findOne c k (.js v) = none ↔ ∀ d ∈ c, d.get k ≠ some (.js v) := by
  simp [findOne, matchesEq_js hv]

theorem findOne_js_some {c : Collection} {k : String} {v : JsVal} {d : Doc}
    (hv : v ≠ JsVal.null) (h : findOne c k (.js v) = some d) : d.get k = some (.js v) := by
  have := List.find?_some h
  simpa [matchesEq_js hv] using this

theorem findOne_append_hit {c : Collection} {k : String} {v : JsVal} (hv : v ≠ JsVal.null)
    (hnone : findOne c k (.js v) = none) (d : Doc) (hd : d.get k = some (.js v)) :
    findOne (c ++ [d]) k (.js v) = some d := by
  unfold findOne at hnone ⊢
  rw [List.find?_append, hnone]
  simp [matchesEq_js hv, hd]

theorem strictEq_of_ne (f : Option BsonVal) (p : JsVal) (h : f ≠ some (.js p)) :
    strictEq f (some p) = false := by
  cases f with
  | none => simp [strictEq]
  | some b =>
      cases b with
      | js a =>
          have hne : a ≠ p := fun e => h (by rw [e])
          simp [strictEq, hne]
      | nan => simp [strictEq]
      | date ms => simp [strictEq]

theorem strictEq_self (p : JsVal) (hp : p.isPrimitive = true) :
    strictEq (some (.js p)) (some p) = true := by
  simp [strictEq, hp]

/-! ## Branches of the register and login handlers -/

theorem register_invalid (env : Env) (users : Collection) (body : JsObj)
    (h : (truthy (body.get "name") && truthy (body.get "email") &&
      truthy (body.get "password")) = false) :
    register env users body = (failure 400 "Name, email, and password required", users) := by
  unfold register
  simp only []
  rw [if_pos]
  revert h
  cases truthy (body.get "name") <;> cases truthy (body.get "email") <;>
    cases truthy (body.get "password") <;> simp

theorem register_valid (env : Env) (users : Collection) (body : JsObj)
    (hname : truthy (body.get "name") = true) (hemail : truthy (body.get "email") = true)
    (hpass : truthy (body.get "password") = true) :
    register env users body =
      match findOne users "email" (stored (body.get "email")) with
      | some _ => (failure 409 "User already exists", users)
      | none =>
          (⟨201, true, some "User registered successfully",
            some (.user env.newId ((body.get "name").map .js) ((body.get "email").map .js)
              (some (.js (.str "admin")))), none, some (tokenOf env.newId)⟩,
           users ++ [⟨env.newId, [("name", stored (body.get "name")),
              ("email", stored (body.get "email")), ("password", stored (body.get "password")),
              ("role", .js (.str "admin")), ("createdAt", .date env.now)]⟩]) := by
  unfold register
  simp only [hname, hemail, hpass, insertOne]
  rfl

theorem login_invalid (users : Collection) (body : JsObj)
    (h : (truthy (body.get "email") && truthy (body.get "password")) = false) :
    login users body = (failure 400 "Email and password required", users) := by
  unfold login
  simp only []
  rw [if_pos]
  revert h
  cases truthy (body.get "email") <;> cases truthy (body.get "password") <;> simp

theorem login_valid (users : Collection) (body : JsObj)
    (hemail : truthy (body.get "email") = true) (hpass : truthy (body.get "password") = true) :
    login users body =
      match findOne users "email" (stored (body.get "email")) with
      | none => (failure 401 "Invalid email or password", users)
      | some user =>
          if strictEq (user.get "password") (body.get "password") = true then
            (⟨200, true, some "Login successful",
              some (.user user._id (user.get "name") (user.get "email") (user.get "role")),
              none, some (tokenOf user._id)⟩, users)
          else (failure 401 "Invalid email or password", users) := by
  unfold login
  simp only [hemail, hpass]
  cases findOne users "email" (stored (body.get "email")) with
  | none => rfl
  | some user =>
      by_cases h : strictEq (user.get "password") (body.get "password") = true <;> simp [h]

theorem login_snd (users : Collection) (body : JsObj) : (login users body).2 = users := by
  unfold login
  simp only []
  split
  · rfl
  · split
    · rfl
    · split <;> rfl

/-! ## C1: get-by-id with an identifier that does not parse -/

/-- C1 (as stated, refuted): the identifier `not-an-id` does not parse, and
`GET /api/doctors/not-an-id` on the empty collection answers 500, not 404. -/
theorem getDoctorById_malformed_not_404 :
    (∃ e, ObjectId.ofString "not-an-id" = .error e) ∧
      (getDoctorById [] "not-an-id").status = 500 ∧
      (getDoctorById [] "not-an-id").status ≠ 404 :=
  ⟨⟨_, rfl⟩, by decide, by decide⟩

/-- C1 (amended): for every identifier string whose `ObjectId` construction fails
with error `e`, and every doctors collection, the get-by-id handler answers 500
with message "Server error" and the constructor's error text. -/
theorem getDoctorById_malformed_500 (doctors : Collection) (id e : String)
    (h : ObjectId.ofString id = .error e) :
    getDoctorById doctors id = serverError e ∧ (getDoctorById doctors id).status = 500 := by
  simp [getDoctorById, h, serverError]

theorem getDoctorById_malformed_500_witness :
    getDoctorById [⟨⟨"0123456789abcdef01234567"⟩, []⟩] "xyz" =
        serverError "input must be a 24 character hex string, 12 byte Uint8Array, or an integer" ∧
      (getDoctorById [⟨⟨"0123456789abcdef01234567"⟩, []⟩] "xyz").status = 500 :=
  getDoctorById_malformed_500 _ "xyz" _ rfl

/-! ## C2: registering the same email twice -/

/-- C2: on a users collection with no user of email `e`, a register request with
truthy (non-empty) name, email `e` and password, run twice in sequence, answers
201 and then 409, and afterwards exactly one user document has email `e`. -/
theorem register_twice (env1 env2 : Env) (users : Collection) (body : JsObj) (e : JsVal)
    (hname : truthy (body.get "name") = true)
    (hemail : body.get "email" = some e) (he : truthy (some e) = true)
    (hpass : truthy (body.get "password") = true)
    (hnone : ∀ u ∈ users, u.get "email" ≠ some (.js e)) :
    (register env1 users body).1.status = 201 ∧
      (register env2 (register env1 users body).2 body).1.status = 409 ∧
      ((register env2 (register env1 users body).2 body).2.countP
        (fun u => decide (u.get "email" = some (.js e)))) = 1 := by
  obtain ⟨_, hv, hnull⟩ := truthy_some he
  cases hv
  have hemail' : truthy (body.get "email") = true := by rw [hemail]; exact he
  have hst : stored (body.get "email") = .js e := by rw [hemail]; rfl
  have hfind : findOne users "email" (.js e) = none := (findOne_js_eq_none hnull).2 hnone
  have hcount : users.countP (fun u => decide (u.get "email" = some (.js e))) = 0 := by
    rw [List.countP_eq_zero]
    intro u hu
    simpa using hnone u hu
  have h1 := register_valid env1 users body hname hemail' hpass
  rw [hst, hfind] at h1
  simp only [] at h1
  have hget : (⟨env1.newId, [("name", stored (body.get "name")), ("email", .js e),
      ("password", stored (body.get "password")), ("role", .js (.str "admin")),
      ("createdAt", .date env1.now)]⟩ : Doc).get "email" = some (.js e) := by
    simp [Doc.get, List.lookup]
  have hu := findOne_append_hit hnull hfind _ hget
  have h2 := register_valid env2 (register env1 users body).2 body hname hemail' hpass
  rw [hst] at h2
  rw [h1] at h2 ⊢
  simp only [hu] at h2
  rw [h2]
  refine ⟨rfl, rfl, ?_⟩
  simp only [List.countP_append, hcount]
  simp [Doc.get, List.lookup]

theorem register_twice_witness :
    (register (exampleEnv 1 1 ⟨"0123456789abcdef01234567"⟩) []
        [("name", .str "Ann"), ("email", .str "ann@x.org"), ("password", .str "pw")]).1.status = 201 ∧
      (register (exampleEnv 2 2 ⟨"0123456789abcdef01234568"⟩)
        (register (exampleEnv 1 1 ⟨"0123456789abcdef01234567"⟩) []
          [("name", .str "Ann"), ("email", .str "ann@x.org"), ("password", .str "pw")]).2
        [("name", .str "Ann"), ("email", .str "ann@x.org"), ("password", .str "pw")]).1.status = 409 ∧
      ((register (exampleEnv 2 2 ⟨"0123456789abcdef01234568"⟩)
        (register (exampleEnv 1 1 ⟨"0123456789abcdef01234567"⟩) []
          [("name", .str "Ann"), ("email", .str "ann@x.org"), ("password", .str "pw")]).2
        [("name", .str "Ann"), ("email", .str "ann@x.org"), ("password", .str "pw")]).2.countP
        (fun u => decide (u.get "email" = some (.js (.str "ann@x.org"))))) = 1 :=
  register_twice (exampleEnv 1 1 ⟨"0123456789abcdef01234567"⟩) (exampleEnv 2 2 ⟨"0123456789abcdef01234568"⟩) []
    [("name", .str "Ann"), ("email", .str "ann@x.org"), ("password", .str "pw")] (.str "ann@x.org")
    (by decide) (by decide) (by decide) (by decide) (by simp)


/-! ## C3: login failures are indistinguishable -/

/-- C3: a login with truthy (non-empty) email and password answers 401 when no
user has that email (first request) and when the user found holds a different
password (second request); both responses are the same body, success false with
message "Invalid email or password". -/
theorem login_failure_generic (users1 users2 : Collection) (body1 body2 : JsObj)
    (e1 p1 e2 p2 : JsVal) (u : Doc)
    (hemail1 : body1.get "email" = some e1) (he1 : truthy (some e1) = true)
    (hpass1 : body1.get "password" = some p1) (hp1 : truthy (some p1) = true)
    (hemail2 : body2.get "email" = some e2) (he2 : truthy (some e2) = true)
    (hpass2 : body2.get "password" = some p2) (hp2 : truthy (some p2) = true)
    (hunknown : ∀ x ∈ users1, x.get "email" ≠ some (.js e1))
    (hfound : findOne users2 "email" (.js e2) = some u)
    (hwrong : u.get "password" ≠ some (.js p2)) :
    (login users1 body1).1 = failure 401 "Invalid email or password" ∧
      (login users2 body2).1 = failure 401 "Invalid email or password" ∧
      (login users1 body1).1.status = 401 ∧ (login users2 body2).1.status = 401 ∧
      (login users1 body1).1 = (login users2 body2).1 := by
  obtain ⟨_, hv1, hnull1⟩ := truthy_some he1
  cases hv1
  have hfind1 : findOne users1 "email" (.js e1) = none := (findOne_js_eq_none hnull1).2 hunknown
  have h1 : login users1 body1 = (failure 401 "Invalid email or password", users1) := by
    rw [login_valid users1 body1 (by rw [hemail1]; exact he1) (by rw [hpass1]; exact hp1)]
    simp only [hemail1, stored, hfind1]
  have h2 : login users2 body2 = (failure 401 "Invalid email or password", users2) := by
    rw [login_valid users2 body2 (by rw [hemail2]; exact he2) (by rw [hpass2]; exact hp2)]
    simp only [hemail2, stored, hfound, hpass2, strictEq_of_ne _ p2 hwrong]
    simp
  rw [h1, h2]
  exact ⟨rfl, rfl, rfl, rfl, rfl⟩

theorem login_failure_generic_witness :
    (login [] [("email", .str "ann@x.org"), ("password", .str "pw")]).1 =
        failure 401 "Invalid email or password" ∧
      (login [⟨⟨"0123456789abcdef01234567"⟩,
          [("email", .js (.str "ann@x.org")), ("password", .js (.str "pw"))]⟩]
        [("email", .str "ann@x.org"), ("password", .str "other")]).1 =
        failure 401 "Invalid email or password" ∧
      (login [] [("email", .str "ann@x.org"), ("password", .str "pw")]).1.status = 401 ∧
      (login [⟨⟨"0123456789abcdef01234567"⟩,
          [("email", .js (.str "ann@x.org")), ("password", .js (.str "pw"))]⟩]
        [("email", .str "ann@x.org"), ("password", .str "other")]).1.status = 401 ∧
      (login [] [("email", .str "ann@x.org"), ("password", .str "pw")]).1 =
        (login [⟨⟨"0123456789abcdef01234567"⟩,
          [("email", .js (.str "ann@x.org")), ("password", .js (.str "pw"))]⟩]
        [("email", .str "ann@x.org"), ("password", .str "other")]).1 :=
  login_failure_generic [] [⟨⟨"0123456789abcdef01234567"⟩,
      [("email", .js (.str "ann@x.org")), ("password", .js (.str "pw"))]⟩]
    [("email", .str "ann@x.org"), ("password", .str "pw")]
    [("email", .str "ann@x.org"), ("password", .str "other")]
    (.str "ann@x.org") (.str "pw") (.str "ann@x.org") (.str "other")
    ⟨⟨"0123456789abcdef01234567"⟩,
      [("email", .js (.str "ann@x.org")), ("password", .js (.str "pw"))]⟩
    rfl (by decide) rfl (by decide) rfl (by decide) rfl (by decide) (by simp) (by decide)
    (by decide)

/-! ## C10: register, then login with the same credentials -/

/-- C10 (as stated, refuted): a register request whose password is the object
`{}` passes the presence check and answers 201; the login with the same email and
password on the resulting collection answers 401, because the stored object is
not the object of the request. -/
theorem register_then_login_object_password :
    (register (exampleEnv 1 1 ⟨"0123456789abcdef01234567"⟩) []
      [("name", .str "Ann"), ("email", .str "ann@x.org"), ("password", .emptyObject)]).1.status
        = 201 ∧
    (login (register (exampleEnv 1 1 ⟨"0123456789abcdef01234567"⟩) []
      [("name", .str "Ann"), ("email", .str "ann@x.org"), ("password", .emptyObject)]).2
      [("email", .str "ann@x.org"), ("password", .emptyObject)]).1 =
        failure 401 "Invalid email or password" := by
  constructor <;> decide

/-- C10 (amended): when a register request whose password is a primitive (a
string, number or boolean) answers 201, its response carries the generated id
`i`, the name, the email, role "admin" and the token "token-" followed by `i`; a
login on the resulting collection with the same email and password answers 200
with the same id, name, email, role and token, and leaves the collection as it
is. -/
theorem register_then_login (env : Env) (users : Collection) (body body2 : JsObj)
    (h201 : (register env users body).1.status = 201)
    (hprim : ∀ p, body.get "password" = some p → p.isPrimitive = true)
    (hemail : body2.get "email" = body.get "email")
    (hpass : body2.get "password" = body.get "password") :
    ∃ (i : ObjectId) (n e : Option BsonVal),
      (register env users body).1.data = some (.user i n e (some (.js (.str "admin")))) ∧
      (register env users body).1.token = some ("token-" ++ i.hex) ∧
      (login (register env users body).2 body2).1.status = 200 ∧
      (login (register env users body).2 body2).1.data =
        some (.user i n e (some (.js (.str "admin")))) ∧
      (login (register env users body).2 body2).1.token = some ("token-" ++ i.hex) ∧
      (login (register env users body).2 body2).2 = (register env users body).2 := by
  by_cases hv : (truthy (body.get "name") && truthy (body.get "email") &&
      truthy (body.get "password")) = false
  · rw [register_invalid env users body hv] at h201
    simp [failure] at h201
  · simp only [Bool.and_eq_false_iff, not_or, Bool.not_eq_false] at hv
    obtain ⟨⟨hn, he⟩, hp⟩ := hv
    have hreg := register_valid env users body hn he hp
    obtain ⟨nv, hnv, -⟩ := truthy_some hn
    obtain ⟨ev, hev, hnull⟩ := truthy_some he
    obtain ⟨pv, hpv, -⟩ := truthy_some hp
    have hpprim : pv.isPrimitive = true := hprim pv hpv
    have hst : stored (body.get "email") = .js ev := by rw [hev]; rfl
    rw [hst] at hreg
    cases hfind : findOne users "email" (.js ev) with
    | some u =>
        rw [hfind] at hreg
        rw [hreg] at h201
        simp [failure] at h201
    | none =>
        rw [hfind] at hreg
        simp only [] at hreg
        have hget : (⟨env.newId, [("name", stored (body.get "name")), ("email", .js ev),
            ("password", stored (body.get "password")), ("role", .js (.str "admin")),
            ("createdAt", .date env.now)]⟩ : Doc).get "email" = some (.js ev) := by
          simp [Doc.get, List.lookup]
        have hu := findOne_append_hit hnull hfind _ hget
        have hlog := login_valid (register env users body).2 body2 (by rw [hemail]; exact he)
          (by rw [hpass]; exact hp)
        rw [hemail, hpass, hst] at hlog
        rw [hreg] at hlog ⊢
        simp only [hu] at hlog
        rw [hlog]
        refine ⟨env.newId, some (.js nv), some (.js ev), ?_⟩
        simp [hnv, hev, hpv, stored, strictEq, hpprim, Doc.get, List.lookup, tokenOf]

theorem register_then_login_witness :
    ∃ (i : ObjectId) (n e : Option BsonVal),
      (register (exampleEnv 1 1 ⟨"0123456789abcdef01234567"⟩) []
        [("name", .str "Ann"), ("email", .str "ann@x.org"), ("password", .str "pw")]).1.data =
          some (.user i n e (some (.js (.str "admin")))) ∧
      (register (exampleEnv 1 1 ⟨"0123456789abcdef01234567"⟩) []
        [("name", .str "Ann"), ("email", .str "ann@x.org"), ("password", .str "pw")]).1.token =
          some ("token-" ++ i.hex) ∧
      (login (register (exampleEnv 1 1 ⟨"0123456789abcdef01234567"⟩) []
        [("name", .str "Ann"), ("email", .str "ann@x.org"), ("password", .str "pw")]).2
        [("email", .str "ann@x.org"), ("password", .str "pw")]).1.status = 200 ∧
      (login (register (exampleEnv 1 1 ⟨"0123456789abcdef01234567"⟩) []
        [("name", .str "Ann"), ("email", .str "ann@x.org"), ("password", .str "pw")]).2
        [("email", .str "ann@x.org"), ("password", .str "pw")]).1.data =
          some (.user i n e (some (.js (.str "admin")))) ∧
      (login (register (exampleEnv 1 1 ⟨"0123456789abcdef01234567"⟩) []
        [("name", .str "Ann"), ("email", .str "ann@x.org"), ("password", .str "pw")]).2
        [("email", .str "ann@x.org"), ("password", .str "pw")]).1.token =
          some ("token-" ++ i.hex) ∧
      (login (register (exampleEnv 1 1 ⟨"0123456789abcdef01234567"⟩) []
        [("name", .str "Ann"), ("email", .str "ann@x.org"), ("password", .str "pw")]).2
        [("email", .str "ann@x.org"), ("password", .str "pw")]).2 =
        (register (exampleEnv 1 1 ⟨"0123456789abcdef01234567"⟩) []
          [("name", .str "Ann"), ("email", .str "ann@x.org"), ("password", .str "pw")]).2 :=
  register_then_login (exampleEnv 1 1 ⟨"0123456789abcdef01234567"⟩) []
    [("name", .str "Ann"), ("email", .str "ann@x.org"), ("password", .str "pw")]
    [("email", .str "ann@x.org"), ("password", .str "pw")] (by decide) (by simp [JsObj.get, List.lookup, JsVal.isPrimitive])
    rfl rfl

/-! ## C4: create-doctor validation and the presence check on `experience` -/

theorem createDoctor_invalid (env : Env) (doctors : Collection) (body : JsObj)
    (h : (truthy (body.get "name") && truthy (body.get "specialty") &&
      truthy (body.get "email") && truthy (body.get "phone") &&
      (body.get "experience").isSome && truthy (body.get "bio")) = false) :
    createDoctor env doctors body = (failure 400 "All fields required", doctors) := by
  unfold createDoctor
  simp only []
  rw [if_pos]
  revert h
  cases truthy (body.get "name") <;> cases truthy (body.get "specialty") <;>
    cases truthy (body.get "email") <;> cases truthy (body.get "phone") <;>
    cases truthy (body.get "bio") <;> cases body.get "experience" <;> simp

theorem createDoctor_valid (env : Env) (doctors : Collection) (body : JsObj)
    (h : (truthy (body.get "name") && truthy (body.get "specialty") &&
      truthy (body.get "email") && truthy (body.get "phone") &&
      (body.get "experience").isSome && truthy (body.get "bio")) = true) :
    createDoctor env doctors body =
      match findOne doctors "email" (stored (body.get "email")) with
      | some _ => (failure 409 "Doctor with this email already exists", doctors)
      | none =>
          (⟨201, true, some "Doctor added successfully",
            some (.doctor ⟨env.newId,
              [("name", stored (body.get "name")), ("specialty", stored (body.get "specialty")),
               ("email", stored (body.get "email")), ("phone", stored (body.get "phone")),
               ("experience", parseInt env (body.get "experience")), ("bio", stored (body.get "bio")),
               ("imageUrl", if truthy (body.get "imageUrl") then stored (body.get "imageUrl")
                  else .js .null),
               ("createdAt", .date env.now), ("updatedAt", .date env.now2)]⟩), none, none⟩,
           doctors ++ [⟨env.newId,
              [("name", stored (body.get "name")), ("specialty", stored (body.get "specialty")),
               ("email", stored (body.get "email")), ("phone", stored (body.get "phone")),
               ("experience", parseInt env (body.get "experience")), ("bio", stored (body.get "bio")),
               ("imageUrl", if truthy (body.get "imageUrl") then stored (body.get "imageUrl")
                  else .js .null),
               ("createdAt", .date env.now), ("updatedAt", .date env.now2)]⟩]) := by
  unfold createDoctor
  simp only [insertOne]
  rw [if_neg]
  · revert h
    cases truthy (body.get "name") <;> cases truthy (body.get "specialty") <;>
      cases truthy (body.get "email") <;> cases truthy (body.get "phone") <;>
      cases truthy (body.get "bio") <;> cases body.get "experience" <;> simp

/-- C4: for a create-doctor request whose name, specialty, email, phone and bio
are truthy (non-empty), validation answers 400 exactly when the `experience` field
is absent; when it is present, whatever its value (0 included), and no doctor of
the collection has the request's email, the handler answers 201 and the
collection afterwards is the old one followed by the one new doctor. -/
theorem createDoctor_experience_presence (env : Env) (doctors : Collection) (body : JsObj)
    (hname : truthy (body.get "name") = true)
    (hspecialty : truthy (body.get "specialty") = true)
    (hemail : truthy (body.get "email") = true)
    (hphone : truthy (body.get "phone") = true)
    (hbio : truthy (body.get "bio") = true) :
    ((createDoctor env doctors body).1.status = 400 ↔ body.get "experience" = none) ∧
      (body.get "experience" ≠ none →
        (∀ d ∈ doctors, d.get "email" ≠ some (stored (body.get "email"))) →
        (createDoctor env doctors body).1.status = 201 ∧
        (createDoctor env doctors body).1.success = true ∧
        (createDoctor env doctors body).2 = doctors ++ [⟨env.newId,
          [("name", stored (body.get "name")), ("specialty", stored (body.get "specialty")),
           ("email", stored (body.get "email")), ("phone", stored (body.get "phone")),
           ("experience", parseInt env (body.get "experience")), ("bio", stored (body.get "bio")),
           ("imageUrl", if truthy (body.get "imageUrl") then stored (body.get "imageUrl")
              else .js .null),
           ("createdAt", .date env.now), ("updatedAt", .date env.now2)]⟩]) := by
  obtain ⟨ev, hev, hnull⟩ := truthy_some hemail
  have hst : stored (body.get "email") = .js ev := by rw [hev]; rfl
  cases hexp : body.get "experience" with
  | none =>
      have h400 := createDoctor_invalid env doctors body (by simp [hexp])
      rw [h400]
      simp [failure]
  | some x =>
      have hv := createDoctor_valid env doctors body
        (by simp [hname, hspecialty, hemail, hphone, hbio, hexp])
      rw [hexp] at hv
      refine ⟨?_, ?_⟩
      · cases hfind : findOne doctors "email" (stored (body.get "email")) with
        | none => rw [hv, hfind]; simp
        | some u => rw [hv, hfind]; simp [failure]
      · intro _ hnone
        rw [hst] at hnone
        have hfind : findOne doctors "email" (stored (body.get "email")) = none := by
          rw [hst]
          exact (findOne_js_eq_none hnull).2 hnone
        rw [hfind] at hv
        simp only [] at hv
        rw [hv]
        exact ⟨rfl, rfl, rfl⟩

theorem createDoctor_experience_presence_witness :
    ((createDoctor (exampleEnv 5 6 ⟨"0123456789abcdef01234567"⟩) []
        [("name", .str "Dr A"), ("specialty", .str "Cardiology"), ("email", .str "a@x.org"),
         ("phone", .str "555"), ("experience", .num 0), ("bio", .str "b")]).1.status = 400 ↔
      JsObj.get [("name", .str "Dr A"), ("specialty", .str "Cardiology"), ("email", .str "a@x.org"),
         ("phone", .str "555"), ("experience", .num 0), ("bio", .str "b")] "experience" = none) ∧
    (createDoctor (exampleEnv 5 6 ⟨"0123456789abcdef01234567"⟩) []
        [("name", .str "Dr A"), ("specialty", .str "Cardiology"), ("email", .str "a@x.org"),
         ("phone", .str "555"), ("experience", .num 0), ("bio", .str "b")]).1.status = 201 :=
  ⟨(createDoctor_experience_presence (exampleEnv 5 6 ⟨"0123456789abcdef01234567"⟩) []
      [("name", .str "Dr A"), ("specialty", .str "Cardiology"), ("email", .str "a@x.org"),
       ("phone", .str "555"), ("experience", .num 0), ("bio", .str "b")]
      (by decide) (by decide) (by decide) (by decide) (by decide)).1,
   ((createDoctor_experience_presence (exampleEnv 5 6 ⟨"0123456789abcdef01234567"⟩) []
      [("name", .str "Dr A"), ("specialty", .str "Cardiology"), ("email", .str "a@x.org"),
       ("phone", .str "555"), ("experience", .num 0), ("bio", .str "b")]
      (by decide) (by decide) (by decide) (by decide) (by decide)).2 (by decide) (by simp)).1⟩


/-! ## C9: rejected requests leave the store as it was -/

theorem register_rejected (env : Env) (users : Collection) (body : JsObj)
    (h : (register env users body).1.status ≠ 201) : (register env users body).2 = users := by
  by_cases hv : (truthy (body.get "name") && truthy (body.get "email") &&
      truthy (body.get "password")) = false
  · rw [register_invalid env users body hv]
  · simp only [Bool.and_eq_false_iff, not_or, Bool.not_eq_false] at hv
    obtain ⟨⟨hn, he⟩, hp⟩ := hv
    have hreg := register_valid env users body hn he hp
    cases hfind : findOne users "email" (stored (body.get "email")) with
    | some u => rw [hreg, hfind]
    | none =>
        rw [hfind] at hreg
        rw [hreg] at h
        exact absurd rfl h

theorem createDoctor_rejected (env : Env) (doctors : Collection) (body : JsObj)
    (h : (createDoctor env doctors body).1.status ≠ 201) :
    (createDoctor env doctors body).2 = doctors := by
  cases hv : (truthy (body.get "name") && truthy (body.get "specialty") &&
      truthy (body.get "email") && truthy (body.get "phone") &&
      (body.get "experience").isSome && truthy (body.get "bio"))
  · rw [createDoctor_invalid env doctors body hv]
  · have hc := createDoctor_valid env doctors body hv
    cases hfind : findOne doctors "email" (stored (body.get "email")) with
    | some u => rw [hc, hfind]
    | none =>
        rw [hfind] at hc
        rw [hc] at h
        exact absurd rfl h

theorem updateDoctor_parsed (env : Env) (doctors : Collection) (id : String) (body : JsObj)
    (oid : ObjectId) (hid : ObjectId.ofString id = .ok oid) :
    updateDoctor env doctors id body =
      match findOneById doctors oid with
      | none => (failure 404 "Doctor not found", doctors)
      | some _ =>
          if ((updateDataOf env body).lookup "_id").isSome = true then
            (serverError
              "Performing an update on the path '_id' would modify the immutable field '_id'",
              doctors)
          else
            (⟨200, true, some "Doctor updated successfully", none, none, none⟩,
              setFirst doctors oid (updateDataOf env body)) := by
  unfold updateDoctor updateOne
  simp only [hid]
  cases findOneById doctors oid with
  | none => simp
  | some d =>
      by_cases hset : (List.lookup "_id" (updateDataOf env body)).isSome = true
      · simp [hset]
      · simp [hset]

theorem updateDoctor_rejected (env : Env) (doctors : Collection) (id : String) (body : JsObj)
    (h : (updateDoctor env doctors id body).1.status ≠ 200) :
    (updateDoctor env doctors id body).2 = doctors := by
  cases hid : ObjectId.ofString id with
  | error e => simp [updateDoctor, hid]
  | ok oid =>
      rw [updateDoctor_parsed env doctors id body oid hid] at h ⊢
      cases hfind : findOneById doctors oid with
      | none => rfl
      | some d =>
          rw [hfind] at h
          simp only [] at h ⊢
          split
          · rfl
          · rename_i hno
            rw [if_neg hno] at h
            exact absurd rfl h

theorem deleteDoctor_rejected (doctors : Collection) (id : String)
    (h : (deleteDoctor doctors id).1.status ≠ 200) : (deleteDoctor doctors id).2 = doctors := by
  unfold deleteDoctor at h ⊢
  cases hid : ObjectId.ofString id with
  | error e => rfl
  | ok oid =>
      rw [hid] at h
      simp only [] at h ⊢
      unfold deleteOne at h ⊢
      cases hfind : findOneById doctors oid with
      | none => simp
      | some d =>
          rw [hfind] at h
          simp at h

/-- C9: for every store state and every request to register, login,
create-doctor, update-doctor or delete-doctor, a response with status 400, 404 or
409 comes with both collections exactly as they were before the request. -/
theorem rejected_request_no_mutation (env : Env) (db : Db) (req : Request)
    (h : (handle env db req).1.status = 400 ∨ (handle env db req).1.status = 404 ∨
      (handle env db req).1.status = 409) :
    (handle env db req).2 = db := by
  cases req with
  | register body =>
      simp only [handle] at h ⊢
      rw [register_rejected env db.users body (by omega)]
  | login body =>
      simp only [handle]
      rw [login_snd]
  | createDoctor body =>
      simp only [handle] at h ⊢
      rw [createDoctor_rejected env db.doctors body (by omega)]
  | updateDoctor id body =>
      simp only [handle] at h ⊢
      rw [updateDoctor_rejected env db.doctors id body (by omega)]
  | deleteDoctor id =>
      simp only [handle] at h ⊢
      rw [deleteDoctor_rejected db.doctors id (by omega)]

theorem rejected_request_no_mutation_witness :
    (handle (exampleEnv 1 1 ⟨"0123456789abcdef01234567"⟩) ⟨[], []⟩
      (.deleteDoctor "0123456789abcdef01234567")).2 = ⟨[], []⟩ :=
  rejected_request_no_mutation (exampleEnv 1 1 ⟨"0123456789abcdef01234567"⟩) ⟨[], []⟩
    (.deleteDoctor "0123456789abcdef01234567") (by decide)


/-! ## C6: partial update -/

theorem lookup_set (f : Fields) (k k2 : String) (v : BsonVal) :
    (Fields.set f k v).lookup k2 = if k2 = k then some v else f.lookup k2 := by
  induction f with
  | nil =>
      by_cases h : k2 = k
      · simp [Fields.set, List.lookup, h]
      · have : (k2 == k) = false := by simpa using h
        simp [Fields.set, List.lookup, h, this]
  | cons p rest ih =>
      obtain ⟨k1, w⟩ := p
      by_cases h1 : k1 = k
      · subst h1
        by_cases h : k2 = k1
        · simp [Fields.set, List.lookup, h]
        · have : (k2 == k1) = false := by simpa using h
          simp [Fields.set, List.lookup, h, this]
      · by_cases h2 : k2 = k1
        · subst h2
          simp [Fields.set, List.lookup, h1]
        · have : (k2 == k1) = false := by simpa using h2
          simp [Fields.set, List.lookup, h1, this, ih]

theorem lookup_applySet (doc upd : Fields) (k : String) :
    (applySet doc upd).lookup k = (upd.lookup k).orElse (fun _ => doc.lookup k) := by
  induction upd with
  | nil => simp [applySet, List.lookup]
  | cons p rest ih =>
      obtain ⟨k1, v⟩ := p
      by_cases h : k = k1
      · subst h
        simp [applySet, lookup_set, List.lookup]
      · have : (k == k1) = false := by simpa using h
        simp [applySet, lookup_set, List.lookup, h, this, ih]

theorem lookup_map_js (body : JsObj) (k : String) :
    (body.map (fun p => (p.1, BsonVal.js p.2))).lookup k = (body.lookup k).map BsonVal.js := by
  induction body with
  | nil => simp [List.lookup]
  | cons p rest ih =>
      obtain ⟨k1, v⟩ := p
      by_cases h : k = k1
      · subst h
        simp [List.lookup]
      · have : (k == k1) = false := by simpa using h
        simp [List.lookup, this, ih]

theorem lookup_updateDataOf (env : Env) (body : JsObj) (k : String) :
    (updateDataOf env body).lookup k =
      if k = "updatedAt" then some (.date env.now) else (body.get k).map BsonVal.js := by
  simp [updateDataOf, lookup_set, lookup_map_js, JsObj.get]

theorem setFirst_split (c : Collection) (oid : ObjectId) (upd : Fields) (d : Doc)
    (h : findOneById c oid = some d) :
    ∃ pre post, c = pre ++ d :: post ∧ (∀ x ∈ pre, x._id ≠ oid) ∧ d._id = oid ∧
      setFirst c oid upd = pre ++ ⟨d._id, applySet d.fields upd⟩ :: post := by
  induction c with
  | nil => simp [findOneById] at h
  | cons x rest ih =>
      by_cases hx : x._id = oid
      · have : d = x := by simpa [findOneById, List.find?, hx] using h.symm
        subst this
        exact ⟨[], rest, rfl, by simp, hx, by simp [setFirst, hx]⟩
      · have h2 : findOneById rest oid = some d := by
          simpa [findOneById, List.find?, hx] using h
        obtain ⟨pre, post, hc, hpre, hd, hs⟩ := ih h2
        refine ⟨x :: pre, post, by simp [hc], ?_, hd, by simp [setFirst, hx, hs]⟩
        intro y hy
        rcases List.mem_cons.1 hy with rfl | hy
        · exact hx
        · exact hpre y hy


/-- C6 (as stated, refuted): with the body naming `updatedAt`, the update answers
200 and the document's `updatedAt` holds the clock reading, not the body's value;
with the body naming `_id`, the store rejects the update, the handler answers 500
and the document keeps its old `bio` and `updatedAt`. -/
theorem updateDoctor_body_value_not_held :
    (updateDoctor (exampleEnv 5 5 ⟨"0123456789abcdef01234568"⟩)
        [⟨⟨"0123456789abcdef01234567"⟩, [("bio", .js (.str "old")), ("updatedAt", .date 0)]⟩]
        "0123456789abcdef01234567" [("updatedAt", .str "2020")]) =
      (⟨200, true, some "Doctor updated successfully", none, none, none⟩,
        [⟨⟨"0123456789abcdef01234567"⟩, [("bio", .js (.str "old")), ("updatedAt", .date 5)]⟩]) ∧
    (updateDoctor (exampleEnv 5 5 ⟨"0123456789abcdef01234568"⟩)
        [⟨⟨"0123456789abcdef01234567"⟩, [("bio", .js (.str "old")), ("updatedAt", .date 0)]⟩]
        "0123456789abcdef01234567" [("_id", .str "x"), ("bio", .str "new")]) =
      (serverError "Performing an update on the path '_id' would modify the immutable field '_id'",
        [⟨⟨"0123456789abcdef01234567"⟩, [("bio", .js (.str "old")), ("updatedAt", .date 0)]⟩]) := by
  constructor <;> decide

/-- C6 (amended): for every doctors collection, every id whose first match is the
doctor `d`, and every update body of plain field names that does not name `_id`,
the update handler answers 200 and rewrites `d` in place: `updatedAt` holds the current time, every
field named in the body other than `updatedAt` holds the body's value, every
other field of `d` and its `_id` are as before, and the documents before and
after `d` in the collection are unchanged. -/
theorem updateDoctor_partial_merge (env : Env) (doctors : Collection) (id : String)
    (oid : ObjectId) (body : JsObj) (d : Doc)
    (hid : ObjectId.ofString id = .ok oid)
    (hfind : findOneById doctors oid = some d)
    (_hplain : ∀ p ∈ body, plainFieldName p.1 = true)
    (hnoid : body.get "_id" = none) :
    (updateDoctor env doctors id body).1.status = 200 ∧
    ∃ (pre post : List Doc) (d2 : Doc),
      doctors = pre ++ d :: post ∧ (∀ x ∈ pre, x._id ≠ oid) ∧
      (updateDoctor env doctors id body).2 = pre ++ d2 :: post ∧
      d2._id = d._id ∧
      d2.get "updatedAt" = some (.date env.now) ∧
      (∀ k v, k ≠ "updatedAt" → body.get k = some v → d2.get k = some (.js v)) ∧
      (∀ k, k ≠ "updatedAt" → body.get k = none → d2.get k = d.get k) := by
  have hno : ¬ ((updateDataOf env body).lookup "_id").isSome = true := by
    rw [lookup_updateDataOf, hnoid]
    simp
  have hupd := updateDoctor_parsed env doctors id body oid hid
  rw [hfind] at hupd
  simp only [if_neg hno] at hupd
  obtain ⟨pre, post, hc, hpre, -, hs⟩ := setFirst_split doctors oid (updateDataOf env body) d hfind
  rw [hupd]
  refine ⟨rfl, pre, post, ⟨d._id, applySet d.fields (updateDataOf env body)⟩, hc, hpre, hs, rfl,
    ?_, ?_, ?_⟩
  · simp [Doc.get, lookup_applySet, lookup_updateDataOf]
  · intro k v hk hv
    simp [Doc.get, lookup_applySet, lookup_updateDataOf, hk, hv]
  · intro k hk hv
    simp [Doc.get, lookup_applySet, lookup_updateDataOf, hk, hv]

theorem updateDoctor_partial_merge_witness :
    (updateDoctor (exampleEnv 5 5 ⟨"0123456789abcdef01234568"⟩)
        [⟨⟨"0123456789abcdef01234567"⟩, [("bio", .js (.str "old")), ("updatedAt", .date 0)]⟩]
        "0123456789abcdef01234567" [("bio", .str "new")]).1.status = 200 ∧
    ∃ (pre post : List Doc) (d2 : Doc),
      [(⟨⟨"0123456789abcdef01234567"⟩, [("bio", .js (.str "old")), ("updatedAt", .date 0)]⟩ : Doc)]
        = pre ++ ⟨⟨"0123456789abcdef01234567"⟩,
            [("bio", .js (.str "old")), ("updatedAt", .date 0)]⟩ :: post ∧
      (∀ x ∈ pre, x._id ≠ ⟨"0123456789abcdef01234567"⟩) ∧
      (updateDoctor (exampleEnv 5 5 ⟨"0123456789abcdef01234568"⟩)
        [⟨⟨"0123456789abcdef01234567"⟩, [("bio", .js (.str "old")), ("updatedAt", .date 0)]⟩]
        "0123456789abcdef01234567" [("bio", .str "new")]).2 = pre ++ d2 :: post ∧
      d2._id = ⟨"0123456789abcdef01234567"⟩ ∧
      d2.get "updatedAt" = some (.date 5) ∧
      (∀ k v, k ≠ "updatedAt" → JsObj.get [("bio", .str "new")] k = some v →
        d2.get k = some (.js v)) ∧
      (∀ k, k ≠ "updatedAt" → JsObj.get [("bio", .str "new")] k = none →
        d2.get k = Doc.get ⟨⟨"0123456789abcdef01234567"⟩,
            [("bio", .js (.str "old")), ("updatedAt", .date 0)]⟩ k) :=
  updateDoctor_partial_merge (exampleEnv 5 5 ⟨"0123456789abcdef01234568"⟩)
    [⟨⟨"0123456789abcdef01234567"⟩, [("bio", .js (.str "old")), ("updatedAt", .date 0)]⟩]
    "0123456789abcdef01234567" ⟨"0123456789abcdef01234567"⟩ [("bio", .str "new")]
    ⟨⟨"0123456789abcdef01234567"⟩, [("bio", .js (.str "old")), ("updatedAt", .date 0)]⟩
    rfl (by decide) (by decide) (by decide)

/-! ## C7: deleting twice -/

theorem findOneById_of_mem {c : Collection} {oid : ObjectId} {d : Doc} (hd : d ∈ c)
    (hid : d._id = oid) : ∃ x, findOneById c oid = some x := by
  cases h : findOneById c oid with
  | some x => exact ⟨x, rfl⟩
  | none =>
      have := List.find?_eq_none.1 h d hd
      simp [hid] at this

theorem findOneById_eq_none {c : Collection} {oid : ObjectId} :
    findOneById c oid = none ↔ ∀ x ∈ c, x._id ≠ oid := by
  simp [findOneById]

theorem eraseP_id_eq_filter (c : Collection) (oid : ObjectId)
    (hnodup : (c.map (fun x => x._id)).Nodup) :
    c.eraseP (fun x => decide (x._id = oid)) = c.filter (fun x => !decide (x._id = oid)) := by
  induction c with
  | nil => rfl
  | cons x rest ih =>
      rw [List.map_cons, List.nodup_cons] at hnodup
      by_cases hx : x._id = oid
      · have hrest : ∀ y ∈ rest, y._id ≠ oid := by
          intro y hy hyo
          exact hnodup.1 (List.mem_map.2 ⟨y, hy, by rw [hyo, hx]⟩)
        have hf : rest.filter (fun x => !decide (x._id = oid)) = rest := by
          rw [List.filter_eq_self]
          intro y hy
          simpa using hrest y hy
        rw [List.eraseP_cons, List.filter_cons]
        simp only [hx, decide_True, Bool.not_true, cond_true, Bool.false_eq_true, if_false]
        exact hf.symm
      · rw [List.eraseP_cons, List.filter_cons]
        simp only [hx, decide_False, Bool.not_false, cond_false, if_true]
        rw [ih hnodup.2]

theorem deleteDoctor_hit (doctors : Collection) (id : String) (oid : ObjectId) (x : Doc)
    (hid : ObjectId.ofString id = .ok oid) (hx : findOneById doctors oid = some x) :
    deleteDoctor doctors id =
      (⟨200, true, some "Doctor deleted successfully", none, none, none⟩,
        doctors.eraseP (fun d => decide (d._id = oid))) := by
  simp [deleteDoctor, hid, deleteOne, hx]

theorem deleteDoctor_miss (doctors : Collection) (id : String) (oid : ObjectId)
    (hid : ObjectId.ofString id = .ok oid) (hx : findOneById doctors oid = none) :
    deleteDoctor doctors id = (failure 404 "Doctor not found", doctors) := by
  simp [deleteDoctor, hid, deleteOne, hx]

/-- C7: on a doctors collection with unique ids holding a doctor `d` whose id the
path parameter parses to, the delete handler run twice answers 200 and then 404;
after the first call no document with that id remains (`d` is absent), the
collection is the old one with exactly that document removed, every other
document unchanged and in place, and the second call changes nothing. -/
theorem deleteDoctor_twice (doctors : Collection) (id : String) (oid : ObjectId) (d : Doc)
    (hnodup : (doctors.map (fun x => x._id)).Nodup)
    (hid : ObjectId.ofString id = .ok oid)
    (hd : d ∈ doctors) (hdid : d._id = oid) :
    (deleteDoctor doctors id).1.status = 200 ∧
      (deleteDoctor (deleteDoctor doctors id).2 id).1.status = 404 ∧
      d ∉ (deleteDoctor doctors id).2 ∧
      (∀ x ∈ (deleteDoctor doctors id).2, x._id ≠ oid) ∧
      (deleteDoctor doctors id).2 = doctors.filter (fun x => !decide (x._id = oid)) ∧
      (∀ x ∈ doctors, x ≠ d → x ∈ (deleteDoctor doctors id).2) ∧
      (deleteDoctor (deleteDoctor doctors id).2 id).2 = (deleteDoctor doctors id).2 := by
  obtain ⟨x, hx⟩ := findOneById_of_mem hd hdid
  have h1 : deleteDoctor doctors id =
      (⟨200, true, some "Doctor deleted successfully", none, none, none⟩,
        doctors.filter (fun x => !decide (x._id = oid))) := by
    rw [deleteDoctor_hit doctors id oid x hid hx, eraseP_id_eq_filter doctors oid hnodup]
  have hgone : ∀ y ∈ doctors.filter (fun x => !decide (x._id = oid)), y._id ≠ oid := by
    intro y hy
    simpa using (List.mem_filter.1 hy).2
  have hnone : findOneById (doctors.filter (fun x => !decide (x._id = oid))) oid = none :=
    findOneById_eq_none.2 hgone
  have h2 := deleteDoctor_miss _ id oid hid hnone
  have hsnd : (deleteDoctor doctors id).2 = doctors.filter (fun x => !decide (x._id = oid)) := by
    rw [h1]
  rw [hsnd, h2]
  refine ⟨by rw [h1], rfl, ?_, hgone, rfl, ?_, rfl⟩
  · intro hmem
    exact hgone d hmem hdid
  · intro y hy hne
    refine List.mem_filter.2 ⟨hy, ?_⟩
    have hyid : y._id ≠ oid := by
      intro hyo
      apply hne
      have hinj := List.inj_on_of_nodup_map hnodup hy hd
      exact hinj (by rw [hyo, hdid])
    simpa using hyid

theorem deleteDoctor_twice_witness :
    (deleteDoctor [⟨⟨"0123456789abcdef01234567"⟩, [("name", .js (.str "Dr A"))]⟩,
        ⟨⟨"0123456789abcdef01234568"⟩, [("name", .js (.str "Dr B"))]⟩]
      "0123456789ABCDEF01234567").1.status = 200 ∧
    (deleteDoctor (deleteDoctor [⟨⟨"0123456789abcdef01234567"⟩, [("name", .js (.str "Dr A"))]⟩,
        ⟨⟨"0123456789abcdef01234568"⟩, [("name", .js (.str "Dr B"))]⟩]
      "0123456789ABCDEF01234567").2 "0123456789ABCDEF01234567").1.status = 404 :=
  ⟨(deleteDoctor_twice [⟨⟨"0123456789abcdef01234567"⟩, [("name", .js (.str "Dr A"))]⟩,
        ⟨⟨"0123456789abcdef01234568"⟩, [("name", .js (.str "Dr B"))]⟩]
      "0123456789ABCDEF01234567" ⟨"0123456789abcdef01234567"⟩
      ⟨⟨"0123456789abcdef01234567"⟩, [("name", .js (.str "Dr A"))]⟩
      (by decide) rfl (by decide) rfl).1,
   (deleteDoctor_twice [⟨⟨"0123456789abcdef01234567"⟩, [("name", .js (.str "Dr A"))]⟩,
        ⟨⟨"0123456789abcdef01234568"⟩, [("name", .js (.str "Dr B"))]⟩]
      "0123456789ABCDEF01234567" ⟨"0123456789abcdef01234567"⟩
      ⟨⟨"0123456789abcdef01234567"⟩, [("name", .js (.str "Dr A"))]⟩
      (by decide) rfl (by decide) rfl).2.1⟩


/-! ## C5: the latest six doctors -/

theorem bsonLe_total (a b : Option BsonVal) : bsonLe a b = true ∨ bsonLe b a = true := by
  rcases a with _ | (⟨_ | x | m | s⟩ | _ | m) <;>
    rcases b with _ | (⟨_ | y | n | t⟩ | _ | n) <;>
    simp [bsonLe, sortClass]
  · cases x <;> cases y <;> simp
  · exact le_total m n
  · exact le_total s.data t.data
  · exact le_total m n

theorem bsonLe_trans (a b c : Option BsonVal) (hab : bsonLe a b = true)
    (hbc : bsonLe b c = true) : bsonLe a c = true := by
  rcases a with _ | (⟨_ | x | m | s⟩ | _ | m) <;>
    rcases b with _ | (⟨_ | y | n | t⟩ | _ | n) <;>
    rcases c with _ | (⟨_ | z | k | r⟩ | _ | k) <;>
    simp [bsonLe, sortClass] at hab hbc ⊢
  · cases x <;> cases y <;> cases z <;> simp_all
  · exact le_trans hab hbc
  · exact le_trans hab hbc
  · exact le_trans hab hbc


theorem bsonLe_date (m n : Int) : bsonLe (some (.date m)) (some (.date n)) = true ↔ m ≤ n := by
  simp [bsonLe, sortClass]

theorem newerFirst_total : IsTotal Doc newerFirst :=
  ⟨fun a b => bsonLe_total (b.get "createdAt") (a.get "createdAt")⟩

theorem newerFirst_trans : IsTrans Doc newerFirst :=
  ⟨fun a b c hab hbc => bsonLe_trans (c.get "createdAt") (b.get "createdAt")
    (a.get "createdAt") hbc hab⟩

/-- C5: for every doctors collection the list-latest handler answers 200 with a
list `l` of min(6, n) documents of the collection, ordered by `createdAt`
descending; the documents left out (`rest`, so that `l` and `rest` together are a
rearrangement of the collection) each have a `createdAt` no later than that of
every returned document; with fewer than 6 doctors `l` is a rearrangement of the
whole collection. -/
theorem latestDoctors_top_six (doctors : Collection) :
    (latestDoctors doctors).status = 200 ∧ (latestDoctors doctors).success = true ∧
    ∃ l rest : List Doc,
      (latestDoctors doctors).data = some (.doctors l) ∧
      l.length = min 6 doctors.length ∧
      (∀ x ∈ l, x ∈ doctors) ∧
      l.Pairwise (fun x y => bsonLe (y.get "createdAt") (x.get "createdAt") = true) ∧
      (l ++ rest).Perm doctors ∧
      (∀ y ∈ rest, ∀ x ∈ l, bsonLe (y.get "createdAt") (x.get "createdAt") = true) ∧
      (doctors.length < 6 → rest = [] ∧ l.Perm doctors) := by
  have hperm : (doctors.insertionSort newerFirst).Perm doctors :=
    List.perm_insertionSort newerFirst doctors
  have hsorted : (doctors.insertionSort newerFirst).Pairwise newerFirst :=
    @List.sorted_insertionSort Doc newerFirst _ newerFirst_total newerFirst_trans doctors
  have hlen : (doctors.insertionSort newerFirst).length = doctors.length := hperm.length_eq
  rw [← List.take_append_drop 6 (doctors.insertionSort newerFirst)] at hsorted
  obtain ⟨hl, -, hcross⟩ := List.pairwise_append.1 hsorted
  refine ⟨rfl, rfl, (doctors.insertionSort newerFirst).take 6,
    (doctors.insertionSort newerFirst).drop 6, rfl, ?_, ?_, hl, ?_, ?_, ?_⟩
  · rw [List.length_take, hlen]
  · intro x hx
    exact hperm.subset (List.mem_of_mem_take hx)
  · rw [List.take_append_drop]
    exact hperm
  · intro y hy x hx
    exact hcross x hx y hy
  · intro hlt
    have hdrop : (doctors.insertionSort newerFirst).drop 6 = [] :=
      List.drop_eq_nil_of_le (by omega)
    have htake : (doctors.insertionSort newerFirst).take 6 = doctors.insertionSort newerFirst :=
      List.take_of_length_le (by omega)
    rw [hdrop, htake]
    exact ⟨rfl, hperm⟩


theorem latestDoctors_top_six_witness :
    (latestDoctors [⟨⟨"0123456789abcdef01234567"⟩, [("createdAt", .date 10)]⟩,
        ⟨⟨"0123456789abcdef01234568"⟩, [("createdAt", .date 20)]⟩]).status = 200 ∧
    ∃ l rest : List Doc,
      (latestDoctors [⟨⟨"0123456789abcdef01234567"⟩, [("createdAt", .date 10)]⟩,
        ⟨⟨"0123456789abcdef01234568"⟩, [("createdAt", .date 20)]⟩]).data = some (.doctors l) ∧
      l.length = 2 ∧ rest = [] ∧
      l.Perm [⟨⟨"0123456789abcdef01234567"⟩, [("createdAt", .date 10)]⟩,
        ⟨⟨"0123456789abcdef01234568"⟩, [("createdAt", .date 20)]⟩] := by
  obtain ⟨h1, -, l, rest, hd, hl, -, -, -, -, hlt⟩ :=
    latestDoctors_top_six [⟨⟨"0123456789abcdef01234567"⟩, [("createdAt", .date 10)]⟩,
        ⟨⟨"0123456789abcdef01234568"⟩, [("createdAt", .date 20)]⟩]
  exact ⟨h1, l, rest, hd, hl, hlt (by decide)⟩

/-! ## C8: route order and shadowing -/

theorem takeWhile_no_slash (cs : List Char) (h : '/' ∉ cs) :
    cs.takeWhile (fun c => c != '/') = cs := by
  rw [List.takeWhile_eq_self_iff]
  intro c hc
  have : c ≠ '/' := fun e => h (e ▸ hc)
  simpa using this

theorem dropWhile_no_slash (cs : List Char) (h : '/' ∉ cs) :
    cs.dropWhile (fun c => c != '/') = [] := by
  rw [List.dropWhile_eq_nil_iff]
  intro c hc
  have : c ≠ '/' := fun e => h (e ▸ hc)
  simpa using this

theorem dispatch_specialty (s : String) (hne : s ≠ "") (hs : '/' ∉ s.data)
    (hdec : (decodeURIComponent s.data).isSome = true) :
    dispatch .GET ("/api/doctors/specialty/" ++ s) = .handler .doctorsBySpecialty ∧
    matchPath [.lit "api", .lit "doctors", .param "id"] ("/api/doctors/specialty/" ++ s).data
      = none := by
  have hdata : ("/api/doctors/specialty/" ++ s).data =
      '/' :: 'a' :: 'p' :: 'i' :: '/' :: 'd' :: 'o' :: 'c' :: 't' :: 'o' :: 'r' :: 's' :: '/' ::
      's' :: 'p' :: 'e' :: 'c' :: 'i' :: 'a' :: 'l' :: 't' :: 'y' :: '/' :: s.data := by
    rw [String.data_append]
    rfl
  have hnil : s.data ≠ [] := by
    intro h
    apply hne
    cases s
    simp_all
  have hemp : s.data.isEmpty = false := by
    cases hd : s.data with
    | nil => exact absurd hd hnil
    | cons c cs => rfl
  unfold dispatch routes
  rw [hdata]
  simp [dispatchFrom, handlesMethod, matchPath, segMatches, List.takeWhile, List.dropWhile,
    takeWhile_no_slash _ hs, dropWhile_no_slash _ hs, hnil, hemp, hdec]

/-- C8 (as stated, refuted): the specialty route is registered after the id
route, not before it; with the empty specialty segment the GET for
`/api/doctors/specialty/` is dispatched to the get-by-id handler; and with the
segment `%`, which does not decode, the GET for `/api/doctors/specialty/%` is
answered 400 by the router and reaches no handler. -/
theorem specialty_route_claim_fails :
    (routes.map (fun r => r.handler)).indexOf .getDoctorById <
      (routes.map (fun r => r.handler)).indexOf .doctorsBySpecialty ∧
    dispatch .GET ("/api/doctors/specialty/" ++ "") = .handler .getDoctorById ∧
    dispatch .GET ("/api/doctors/specialty/" ++ "%") = .badRequest ∧
    dispatch .GET ("/api/doctors/specialty/" ++ "%") ≠ .handler .doctorsBySpecialty := by
  refine ⟨by decide, by decide, by decide, by decide⟩

/-- C8 (amended): the id route does not shadow the specific routes.  The latest
route is registered before the id route, which would match its path too, and a
GET for `/api/doctors/latest` is dispatched to the list-latest handler.  The
specialty route is registered after the id route, but for every specialty segment
`s` that is not empty, holds no slash and decodes, the id pattern does not match
`/api/doctors/specialty/s` and the GET is dispatched to the list-by-specialty
handler.  Neither request goes to the get-by-id handler. -/
theorem specific_routes_not_shadowed :
    (routes.map (fun r => r.handler)).indexOf .latestDoctors <
      (routes.map (fun r => r.handler)).indexOf .getDoctorById ∧
    (routes.map (fun r => r.handler)).indexOf .getDoctorById <
      (routes.map (fun r => r.handler)).indexOf .doctorsBySpecialty ∧
    (matchPath [.lit "api", .lit "doctors", .param "id"] "/api/doctors/latest".data).isSome
      = true ∧
    dispatch .GET "/api/doctors/latest" = .handler .latestDoctors ∧
    dispatch .GET "/api/doctors/latest" ≠ .handler .getDoctorById ∧
    ∀ s : String, s ≠ "" → '/' ∉ s.data → (decodeURIComponent s.data).isSome = true →
      matchPath [.lit "api", .lit "doctors", .param "id"]
        ("/api/doctors/specialty/" ++ s).data = none ∧
      dispatch .GET ("/api/doctors/specialty/" ++ s) = .handler .doctorsBySpecialty ∧
      dispatch .GET ("/api/doctors/specialty/" ++ s) ≠ .handler .getDoctorById := by
  refine ⟨by decide, by decide, by decide, by decide, by decide, ?_⟩
  intro s hne hs hdec
  obtain ⟨hd, hm⟩ := dispatch_specialty s hne hs hdec
  rw [hd]
  exact ⟨hm, rfl, by decide⟩

theorem specific_routes_not_shadowed_witness :
    matchPath [.lit "api", .lit "doctors", .param "id"]
        ("/api/doctors/specialty/" ++ "Cardiology").data = none ∧
      dispatch .GET ("/api/doctors/specialty/" ++ "Cardiology") = .handler .doctorsBySpecialty ∧
      dispatch .GET ("/api/doctors/specialty/" ++ "Cardiology") ≠ .handler .getDoctorById :=
  specific_routes_not_shadowed.2.2.2.2.2 "Cardiology" (by decide) (by decide) (by decide)

end Hospital
